import Mathlib

/-!
Verification of the Compras expense-reimbursement data/auth layer.

The definitions below are a shallow embedding of the two source files:
- `src/src/lib/supabase.ts` (backend client + expense data-access module);
- `src/unnamed/part_000`    (auth/session context, `AuthProvider`).

Remote calls are modelled by passing their outcome (`Except BackendError _`
or `Option BackendError`) as an explicit argument; the in-memory database is
a record of row lists, and the query builder of `fetchExpenses` is reified
as a list of conditions interpreted over rows.
-/

namespace Compras

/-- A failed remote call, carrying a provider-specific code and message. -/
structure BackendError where
  code : String
  message : String
deriving DecidableEq

/-- Row of the `expenses` relation (interface `Expense` in supabase.ts). -/
structure ExpenseRow where
  id : String
  user_id : String
  name : String
  description : String
  amount : Nat
  purpose : String
  cost_center_id : String
  category_id : String
  payment_date : Nat
  status : String
  payment_status : Option String
  paid_at : Option Nat
  rejection_reason : Option String
  submitted_date : Nat
  updated_at : Nat
deriving DecidableEq

/-- Row of the `receipts` relation (interface `Receipt` in supabase.ts). -/
structure ReceiptRow where
  expense_id : String
  file_name : String
  file_type : String
  file_size : Nat
  storage_path : String
deriving DecidableEq

/-- Row of the `categories` / `cost_centers` relations: (id, name). -/
structure NamedRow where
  id : String
  name : String
deriving DecidableEq

/-- The backend tables touched by the expense data-access module. -/
structure Db where
  expenses : List ExpenseRow
  receipts : List ReceiptRow
deriving DecidableEq

/-! ## fetchExpenses: query construction (supabase.ts lines 63-116)

`filters` is an untyped object in the source; its fields are optional, so the
embedding uses `Option`. A JS string is falsy exactly when empty, so the
source guard `filters.status && filters.status !== ""` is `s ≠ ""` here.
Date values reach the query via `toISOString()`, which is order-preserving,
so timestamps are modelled as `Nat`. -/

/-- `filters.dateRange` with optional `from` / `to` bounds. -/
structure DateRange where
  dfrom : Option Nat
  dto : Option Nat
deriving DecidableEq

/-- The optional filter object accepted by `fetchExpenses`. -/
structure Filters where
  search : Option String
  status : Option String
  category : Option String
  costCenter : Option String
  dateRange : Option DateRange
deriving DecidableEq

/-- The filter object with every field absent (`fetchExpenses()` default). -/
def emptyFilters : Filters :=
  { search := none, status := none, category := none, costCenter := none, dateRange := none }

/-- One condition appended to the supabase query builder. -/
inductive Cond where
  | searchIlike (term : String)
  | eqStatus (s : String)
  | eqCategory (s : String)
  | eqCostCenter (s : String)
  | gteSubmitted (d : Nat)
  | lteSubmitted (d : Nat)
deriving DecidableEq

/-- JS `String.prototype.trim`: strip leading and trailing whitespace. -/
def jsTrim (s : String) : String :=
  String.mk (((s.data.dropWhile Char.isWhitespace).reverse.dropWhile Char.isWhitespace).reverse)

/-- `if (filters.search && filters.search.trim()) query.or(ilike name/descr)`. -/
def searchConds : Option String → List Cond
  | some s => if s != "" && jsTrim s != "" then [Cond.searchIlike (jsTrim s)] else []
  | none => []

/-- `if (filters.status && filters.status !== "") query.eq("status", ...)`. -/
def statusConds : Option String → List Cond
  | some s => if s != "" then [Cond.eqStatus s] else []
  | none => []

/-- `if (filters.category && filters.category !== "") query.eq("category_id", ...)`. -/
def categoryConds : Option String → List Cond
  | some s => if s != "" then [Cond.eqCategory s] else []
  | none => []

/-- `if (filters.costCenter && filters.costCenter !== "") query.eq("cost_center_id", ...)`. -/
def costCenterConds : Option String → List Cond
  | some s => if s != "" then [Cond.eqCostCenter s] else []
  | none => []

/-- `if (filters.dateRange?.from) gte(...)` then `if (filters.dateRange?.to) lte(...)`. -/
def dateConds : Option DateRange → List Cond
  | some dr =>
      (match dr.dfrom with | some d => [Cond.gteSubmitted d] | none => []) ++
      (match dr.dto with | some d => [Cond.lteSubmitted d] | none => [])
  | none => []

/-- The condition list accumulated by `fetchExpenses`, in source order. -/
def buildQuery (f : Filters) : List Cond :=
  searchConds f.search ++ statusConds f.status ++ categoryConds f.category ++
    costCenterConds f.costCenter ++ dateConds f.dateRange

/-- Case-insensitive substring match, the semantics of `ilike '%term%'`. -/
def ilikeContains (hay pat : String) : Bool :=
  decide (pat.toLower.toList <:+: hay.toLower.toList)

/-- Interpretation of one query condition on an expense row. -/
def condHolds (c : Cond) (e : ExpenseRow) : Bool :=
  match c with
  | Cond.searchIlike t => ilikeContains e.name t || ilikeContains e.description t
  | Cond.eqStatus s => e.status == s
  | Cond.eqCategory s => e.category_id == s
  | Cond.eqCostCenter s => e.cost_center_id == s
  | Cond.gteSubmitted d => decide (d ≤ e.submitted_date)
  | Cond.lteSubmitted d => decide (e.submitted_date ≤ d)

/-- `order("submitted_date", { ascending: false })`: newest first. -/
def submittedDesc (a b : ExpenseRow) : Prop :=
  b.submitted_date ≤ a.submitted_date

instance : DecidableRel submittedDesc :=
  fun a b => Nat.decLe b.submitted_date a.submitted_date

instance : IsTotal ExpenseRow submittedDesc :=
  ⟨fun a b => Nat.le_total b.submitted_date a.submitted_date⟩

instance : IsTrans ExpenseRow submittedDesc :=
  ⟨fun _ _ _ hab hbc => Nat.le_trans hbc hab⟩

/-- Relational semantics of running the built query against the table. -/
def runQuery (q : List Cond) (db : List ExpenseRow) : List ExpenseRow :=
  List.insertionSort submittedDesc (db.filter fun e => q.all fun c => condHolds c e)

/-- Success-path result of `fetchExpenses filters` on table `db`. -/
def fetchExpensesRows (f : Filters) (db : List ExpenseRow) : List ExpenseRow :=
  runQuery (buildQuery f) db

/-- Error handling of `fetchExpenses` (supabase.ts lines 104-115):
`if (error) throw error; return data || [];` and the catch rethrows. -/
def fetchExpensesResult (outcome : Except BackendError (Option (List ExpenseRow))) :
    Except BackendError (List ExpenseRow) :=
  match outcome with
  | Except.error e => Except.error e
  | Except.ok d => Except.ok (d.getD [])

/-! ## fetchCategories / fetchCostCenters (supabase.ts lines 272-308)

Both read the full table with `order("name")`; a backend error is thrown
inside the `try` and swallowed by the `catch`, which returns `[]`. -/

/-- Ascending order on the `name` column. -/
def nameLe (a b : NamedRow) : Prop :=
  a.name ≤ b.name

instance : DecidableRel nameLe :=
  fun a b => inferInstanceAs (Decidable (a.name ≤ b.name))

instance : IsTotal NamedRow nameLe :=
  ⟨fun a b => le_total a.name b.name⟩

instance : IsTrans NamedRow nameLe :=
  ⟨fun _ _ _ hab hbc => le_trans hab hbc⟩

/-- `fetchCategories`: table read ordered by name, `[]` on any failure. -/
def fetchCategories (table : List NamedRow) (err : Option BackendError) : List NamedRow :=
  match err with
  | some _ => []
  | none => List.insertionSort nameLe table

/-- `fetchCostCenters`: table read ordered by name, `[]` on any failure. -/
def fetchCostCenters (table : List NamedRow) (err : Option BackendError) : List NamedRow :=
  match err with
  | some _ => []
  | none => List.insertionSort nameLe table

/-! ## hasRole (part_000 lines 251-254) and role derivation (lines 159-162) -/

/-- `hasRole(role)`: `if (isAdmin) return true; return userRoles.includes(role)`. -/
def hasRole (isAdmin : Bool) (userRoles : List String) (role : String) : Bool :=
  if isAdmin then true else userRoles.contains role

/-- `roles.includes("admin")`, the derivation of `isAdmin` from the role list. -/
def deriveIsAdmin (roles : List String) : Bool :=
  roles.contains "admin"

/-! ## deleteExpense (supabase.ts lines 310-334)

Deletes every `receipts` row with the given `expense_id`, then the expense
row; each backend delete may fail, which is modelled by an optional injected
error per call. A failed call leaves its table untouched and is rethrown. -/

/-- `deleteExpense(id)`: receipts first, then the expense; errors rethrown. -/
def deleteExpense (id : String) (receiptsDelErr expenseDelErr : Option BackendError)
    (db : Db) : Except BackendError Bool × Db :=
  match receiptsDelErr with
  | some e => (Except.error e, db)
  | none =>
    let db1 : Db := { db with receipts := db.receipts.filter fun r => r.expense_id != id }
    match expenseDelErr with
    | some e => (Except.error e, db1)
    | none => (Except.ok true, { db1 with expenses := db1.expenses.filter fun x => x.id != id })

/-! ## updateExpenseStatus / updatePaymentStatus (supabase.ts lines 202-252)

Both send a partial update object to the backend, which merges it into the
matched row; fields absent from the object keep their previous value. -/

/-- Effect on the matched row of the `updateExpenseStatus` update object:
`{ status, updated_at }`, plus `rejection_reason` only when
`status === "rejected" && rejectionReason` (a JS string is truthy iff
non-empty). -/
def applyStatusUpdate (e : ExpenseRow) (status : String)
    (rejectionReason : Option String) (now : Nat) : ExpenseRow :=
  let base := { e with status := status, updated_at := now }
  match rejectionReason with
  | some r => if status == "rejected" && r != "" then { base with rejection_reason := some r } else base
  | none => base

/-- Effect on the matched row of the `updatePaymentStatus` update object:
`payment_status` paid/pending, `paid_at` set or cleared, `updated_at`. -/
def applyPaymentUpdate (e : ExpenseRow) (isPaid : Bool) (now : Nat) : ExpenseRow :=
  { e with payment_status := some (if isPaid then "paid" else "pending"),
           paid_at := if isPaid then some now else none,
           updated_at := now }

/-- Data-model invariant: `rejection_reason` is set only when the status is
"rejected". -/
def rejectionInvariant (e : ExpenseRow) : Bool :=
  e.rejection_reason.isNone || (e.status == "rejected")

/-- A sample expense row used to instantiate theorems at concrete inputs. -/
def sampleExpense : ExpenseRow :=
  { id := "e1", user_id := "u1", name := "Taxi", description := "Airport ride",
    amount := 50, purpose := "trip", cost_center_id := "cc1", category_id := "cat1",
    payment_date := 10, status := "pending", payment_status := none, paid_at := none,
    rejection_reason := none, submitted_date := 20, updated_at := 20 }

/-! ## createExpense (supabase.ts lines 141-200)

Inserts the expense row, then (when files are attached) uploads each file and
builds one receipt record per file inside a `Promise.all`; if any upload
fails the whole operation rejects before the receipts insert runs. Each
file is paired with the outcome of its upload. -/

/-- Metadata of an attached `File` (name, MIME type, byte size). -/
structure FileRec where
  name : String
  type : String
  size : Nat
deriving DecidableEq

/-- `file.name.split(".").pop()`: the final dot-separated component. -/
def fileExt (n : String) : String :=
  (n.splitOn ".").getLastD ""

/-- Storage key `{expense_id}/{timestamp}_{index}.{extension}`. -/
def mkStoragePath (expenseId : String) (now i : Nat) (f : FileRec) : String :=
  expenseId ++ "/" ++ toString now ++ "_" ++ toString i ++ "." ++ fileExt f.name

/-- The receipt record built for one successfully uploaded file. -/
def mkReceipt (expenseId : String) (now i : Nat) (f : FileRec) : ReceiptRow :=
  { expense_id := expenseId, file_name := f.name, file_type := f.type,
    file_size := f.size, storage_path := mkStoragePath expenseId now i f }

/-- A sample attached file whose upload succeeds. -/
def sampleFileOk : FileRec :=
  { name := "a.pdf", type := "application/pdf", size := 10 }

/-- A sample attached file whose upload fails. -/
def sampleFileBad : FileRec :=
  { name := "b.pdf", type := "application/pdf", size := 20 }

/-- A sample upload error. -/
def uploadErr : BackendError :=
  { code := "503", message := "upload failed" }

/-- Two attached files where the second upload fails. -/
def sampleFiles : List (FileRec × Option BackendError) :=
  [(sampleFileOk, none), (sampleFileBad, some uploadErr)]

/-- An empty database. -/
def emptyDb : Db :=
  { expenses := [], receipts := [] }

/-- The error `Promise.all` rejects with when some upload fails. -/
def firstUploadError : List (FileRec × Option BackendError) → Option BackendError
  | [] => none
  | (_, some e) :: _ => some e
  | (_, none) :: rest => firstUploadError rest

/-- `createExpense(expense, files)`: insert the row, upload files, insert
receipt records; any failure is rethrown with nothing rolled back. -/
def createExpense (expense : ExpenseRow) (files : List (FileRec × Option BackendError))
    (now : Nat) (insertErr receiptsInsertErr : Option BackendError) (db : Db) :
    Except BackendError ExpenseRow × Db :=
  match insertErr with
  | some e => (Except.error e, db)
  | none =>
    let db1 : Db := { db with expenses := db.expenses ++ [expense] }
    if files.length > 0 then
      match firstUploadError files with
      | some e => (Except.error e, db1)
      | none =>
        let receipts := files.enum.map fun p => mkReceipt expense.id now p.1 p.2.1
        match receiptsInsertErr with
        | some e => (Except.error e, db1)
        | none => (Except.ok expense, { db1 with receipts := db1.receipts ++ receipts })
    else (Except.ok expense, db1)

/-! ## Auth context (part_000)

The provider state is the six `useState` fields plus the `initialLoad` flag
closed over by the `onAuthStateChange` handler. A session is identified by
its user id; invoking `fetchUserProfile` is recorded in `fetchLog` (its body
is modelled separately below). -/

/-- Row of the `users` relation: profile with legacy singular `role` and the
`roles` collection. -/
structure ProfileRow where
  id : String
  name : String
  email : String
  role : Option String
  roles : Option (List String)
deriving DecidableEq

/-- The live auth identity returned by `supabase.auth.getUser()`. -/
structure AuthUser where
  metaName : Option String
  email : String
deriving DecidableEq

/-- Provider state: `useState` fields plus the `initialLoad` flag and a log
of the user ids `fetchUserProfile` was invoked for. -/
structure AuthState where
  initialLoad : Bool
  session : Option String
  user : Option String
  profile : Option ProfileRow
  isAdmin : Bool
  userRoles : List String
  isLoading : Bool
  fetchLog : List String
deriving DecidableEq

/-- Record that `fetchUserProfile(uid)` was invoked. -/
def recordFetch (st : AuthState) (uid : String) : AuthState :=
  { st with fetchLog := st.fetchLog ++ [uid] }

/-- Effect startup (part_000 lines 46-57): initial `useState` values, the
`getSession` callback setting session/user, then either a profile fetch or
`setIsLoading(false)`. -/
def initEffect (s : Option String) : AuthState :=
  let st0 : AuthState :=
    { initialLoad := true, session := s, user := s, profile := none,
      isAdmin := false, userRoles := [], isLoading := true, fetchLog := [] }
  match s with
  | some uid => recordFetch st0 uid
  | none => { st0 with isLoading := false }

/-- The `onAuthStateChange` handler (part_000 lines 62-78): the first event
is discarded; later events update session/user and either fetch the profile
or clear the identity state. -/
def handleAuthEvent (st : AuthState) (s : Option String) : AuthState :=
  if st.initialLoad then { st with initialLoad := false }
  else
    let st1 := { st with session := s, user := s }
    match s with
    | some uid => recordFetch st1 uid
    | none =>
      { st1 with profile := none, isAdmin := false, userRoles := [], isLoading := false }

/-! ## fetchUserProfile (part_000 lines 94-172)

Remote outcomes are passed explicitly: `envOk` models the configuration
check that throws when an environment variable is missing (any such throw is
caught by the outer `catch`), `readResult` the `.single()` read,
`authUser` the `getUser()` result, `insertErr` the profile insert and
`reread` the re-read after a successful insert. -/

/-- `data.roles || (data.role ? [data.role] : ["user"])` with the
`Array.isArray` normalisation of lines 161-162 (a typed `roles` column is
always an array; an empty JS string is falsy). -/
def deriveRoles (p : ProfileRow) : List String :=
  match p.roles with
  | some rs => rs
  | none =>
    match p.role with
    | some r => if r != "" then [r] else ["user"]
    | none => ["user"]

/-- The shared failure exit: `setProfile(null); setIsAdmin(false);
setUserRoles(["user"])`, then the `finally` clears loading. -/
def profileFallback (st : AuthState) : AuthState :=
  { st with profile := none, isAdmin := false, userRoles := ["user"], isLoading := false }

/-- Adopt a freshly read profile row and derive the role state. -/
def adoptProfile (st : AuthState) (data : ProfileRow) : AuthState :=
  let roles := deriveRoles data
  { st with profile := some data, isAdmin := roles.contains "admin",
            userRoles := roles, isLoading := false }

/-- `fetchUserProfile(userId)` as a transformer of the provider state, with
every remote outcome injected as an argument. -/
def fetchUserProfile (envOk : Bool) (readResult : Except BackendError ProfileRow)
    (authUser : Option AuthUser) (insertErr : Option BackendError)
    (reread : Option ProfileRow) (st : AuthState) : AuthState :=
  let st := { st with isLoading := true }
  if !envOk then
    profileFallback st
  else
    match readResult with
    | Except.ok data => adoptProfile st data
    | Except.error err =>
      if err.code == "PGRST116" then
        match authUser with
        | some _ =>
          match insertErr with
          | none =>
            match reread with
            | some newData => adoptProfile st newData
            | none => profileFallback st
          | some _ => profileFallback st
        | none => profileFallback st
      else profileFallback st

end Compras

namespace Compras

/-- C1: for every role collection R and every role r, `hasRole r` with
`isAdmin` derived as membership of "admin" in R returns true iff
"admin" ∈ R or r ∈ R. -/
theorem hasRole_admin_or_member (R : List String) (r : String) :
    hasRole (deriveIsAdmin R) R r = true ↔ "admin" ∈ R ∨ r ∈ R := by
  by_cases h : "admin" ∈ R <;> simp [hasRole, deriveIsAdmin, h]

/-- C5 counterexample: a failing backend call makes `fetchExpenses` raise the
error instead of returning the empty sequence. -/
theorem fetchExpenses_error_counterexample :
    fetchExpensesResult (Except.error { code := "500", message := "backend failure" }) =
      Except.error { code := "500", message := "backend failure" } ∧
    fetchExpensesResult (Except.error { code := "500", message := "backend failure" }) ≠
      Except.ok [] := by
  constructor
  · rfl
  · intro h
    exact Except.noConfusion h

/-- C5 amended: a failing backend call is propagated by `fetchExpenses`; the
empty sequence is returned only on success with absent data. -/
theorem fetchExpenses_error_propagates (e : BackendError)
    (rows : List ExpenseRow) :
    fetchExpensesResult (Except.error e) = Except.error e ∧
    fetchExpensesResult (Except.ok none) = Except.ok [] ∧
    fetchExpensesResult (Except.ok (some rows)) = Except.ok rows :=
  ⟨rfl, rfl, rfl⟩

/-- C8: on a failed read `fetchCategories` and `fetchCostCenters` return the
empty sequence; on success each returns the full table ordered by name. -/
theorem fetchCategories_costCenters_error_empty (table : List NamedRow)
    (e : BackendError) :
    fetchCategories table (some e) = [] ∧
    fetchCostCenters table (some e) = [] ∧
    (fetchCategories table none).Perm table ∧
    List.Sorted nameLe (fetchCategories table none) ∧
    (fetchCostCenters table none).Perm table ∧
    List.Sorted nameLe (fetchCostCenters table none) := by
  refine ⟨rfl, rfl, ?_, ?_, ?_, ?_⟩
  · exact List.perm_insertionSort nameLe table
  · exact List.sorted_insertionSort nameLe table
  · exact List.perm_insertionSort nameLe table
  · exact List.sorted_insertionSort nameLe table

/-- C3: deleteExpense removes every receipt row referencing the expense
before the expense row is removed; when the receipt deletion fails the error
is raised and the database — the expense row in particular — is unchanged. -/
theorem deleteExpense_receipts_first (id : String) (db : Db) (e : BackendError)
    (expErr : Option BackendError) :
    deleteExpense id (some e) expErr db = (Except.error e, db) ∧
    (deleteExpense id none none db).1 = Except.ok true ∧
    (deleteExpense id none none db).2.receipts =
      db.receipts.filter (fun r => r.expense_id != id) ∧
    (deleteExpense id none none db).2.expenses =
      db.expenses.filter (fun x => x.id != id) ∧
    (∀ r ∈ (deleteExpense id none none db).2.receipts, r.expense_id ≠ id) ∧
    (deleteExpense id none (some e) db).1 = Except.error e ∧
    (deleteExpense id none (some e) db).2.receipts =
      db.receipts.filter (fun r => r.expense_id != id) ∧
    (deleteExpense id none (some e) db).2.expenses = db.expenses := by
  refine ⟨rfl, rfl, rfl, rfl, ?_, rfl, rfl, rfl⟩
  intro r hr
  have := List.of_mem_filter hr
  simpa using this

/-- C4 counterexample: an expense satisfying the rejection invariant, once
updated from "rejected" to "approved" by `updateExpenseStatus`, keeps its
stale `rejection_reason`, so the invariant is not preserved. -/
theorem updateStatus_invariant_counterexample :
    rejectionInvariant
        { sampleExpense with status := "rejected", rejection_reason := some "late" } = true ∧
    (applyStatusUpdate
        { sampleExpense with status := "rejected", rejection_reason := some "late" }
        "approved" none 30).status = "approved" ∧
    (applyStatusUpdate
        { sampleExpense with status := "rejected", rejection_reason := some "late" }
        "approved" none 30).rejection_reason = some "late" ∧
    rejectionInvariant
        (applyStatusUpdate
          { sampleExpense with status := "rejected", rejection_reason := some "late" }
          "approved" none 30) = false := by
  refine ⟨rfl, rfl, rfl, rfl⟩

/-- C4 amended: `updateExpenseStatus` writes `rejection_reason` only when the
new status is "rejected" and a non-empty reason is supplied, and never clears
it; hence the invariant is preserved whenever the row had no rejection reason
or the new status is "rejected", and `updatePaymentStatus` always preserves
it — but approving a previously rejected expense leaves the stale reason. -/
theorem updateStatus_invariant_amended (e : ExpenseRow) (status : String)
    (reason : Option String) (now : Nat) (isPaid : Bool)
    (h1 : e.rejection_reason = none ∨ status = "rejected")
    (h2 : rejectionInvariant e = true) :
    rejectionInvariant (applyStatusUpdate e status reason now) = true ∧
    rejectionInvariant (applyPaymentUpdate e isPaid now) = true := by
  constructor
  · cases reason with
    | none =>
      rcases h1 with h | h <;> simp [applyStatusUpdate, rejectionInvariant, h]
    | some r =>
      by_cases hs : status = "rejected"
      · subst hs
        simp only [applyStatusUpdate, rejectionInvariant]
        split <;> simp
      · have hc : (status == "rejected" && r != "") = false := by simp [hs]
        rcases h1 with h | h
        · simp [applyStatusUpdate, rejectionInvariant, hc, h]
        · exact absurd h hs
  · simpa [applyPaymentUpdate, rejectionInvariant] using h2

/-- C4 amended, instantiated: a pending expense without rejection reason,
approved and then marked paid, still satisfies the invariant. -/
theorem updateStatus_invariant_amended_witness :
    (sampleExpense.rejection_reason = none ∨ "approved" = "rejected") ∧
    rejectionInvariant sampleExpense = true ∧
    (rejectionInvariant (applyStatusUpdate sampleExpense "approved" none 30) = true ∧
     rejectionInvariant (applyPaymentUpdate sampleExpense true 30) = true) :=
  ⟨Or.inl rfl, rfl,
    updateStatus_invariant_amended sampleExpense "approved" none 30 true
      (Or.inl rfl) rfl⟩

/-- If some upload failed, `Promise.all` rejects with a concrete error. -/
theorem firstUploadError_isSome (files : List (FileRec × Option BackendError))
    (h : ∃ p ∈ files, p.2.isSome = true) : ∃ e, firstUploadError files = some e := by
  induction files with
  | nil => simp at h
  | cons hd tl ih =>
    obtain ⟨f, err⟩ := hd
    cases err with
    | some e => exact ⟨e, rfl⟩
    | none =>
      rcases h with ⟨p, hp, hsome⟩
      rcases List.mem_cons.mp hp with heq | hmem
      · subst heq; simp at hsome
      · exact ih ⟨p, hmem, hsome⟩

/-- C6: when at least one upload of a non-empty file list fails,
`createExpense` raises a backend error, the inserted expense row stays in the
table, and no receipt row is inserted. -/
theorem createExpense_upload_failure (expense : ExpenseRow)
    (files : List (FileRec × Option BackendError)) (now : Nat)
    (recErr : Option BackendError) (db : Db)
    (h : ∃ p ∈ files, p.2.isSome = true) :
    (∃ e, createExpense expense files now none recErr db =
      (Except.error e, { db with expenses := db.expenses ++ [expense] })) ∧
    (createExpense expense files now none recErr db).2.expenses =
      db.expenses ++ [expense] ∧
    expense ∈ (createExpense expense files now none recErr db).2.expenses ∧
    (createExpense expense files now none recErr db).2.receipts = db.receipts := by
  obtain ⟨e, he⟩ := firstUploadError_isSome files h
  have hlen : files.length > 0 := by
    rcases h with ⟨p, hp, _⟩
    exact List.length_pos.mpr (List.ne_nil_of_mem hp)
  have hrun : createExpense expense files now none recErr db =
      (Except.error e, { db with expenses := db.expenses ++ [expense] }) := by
    simp [createExpense, hlen, he]
  refine ⟨⟨e, hrun⟩, ?_, ?_, ?_⟩ <;> simp [hrun]

/-- C6 instantiated: two files where the second upload fails — the expense
row is present, zero receipt rows are inserted, and an error is raised. -/
theorem createExpense_upload_failure_witness :
    (∃ p ∈ sampleFiles, p.2.isSome = true) ∧
    ((∃ e, createExpense sampleExpense sampleFiles 99 none none emptyDb =
      (Except.error e, { emptyDb with expenses := emptyDb.expenses ++ [sampleExpense] })) ∧
    (createExpense sampleExpense sampleFiles 99 none none emptyDb).2.expenses =
      emptyDb.expenses ++ [sampleExpense] ∧
    sampleExpense ∈ (createExpense sampleExpense sampleFiles 99 none none emptyDb).2.expenses ∧
    (createExpense sampleExpense sampleFiles 99 none none emptyDb).2.receipts =
      emptyDb.receipts) :=
  ⟨by decide,
    createExpense_upload_failure sampleExpense sampleFiles 99 none emptyDb (by decide)⟩

/-- C9: every exit path of `fetchUserProfile` — profile found, row missing
with successful or failed auto-insert, failed re-read, missing auth identity,
other read error, or a thrown configuration exception — ends with
`isLoading = false`. -/
theorem fetchUserProfile_clears_loading (envOk : Bool)
    (readResult : Except BackendError ProfileRow) (authUser : Option AuthUser)
    (insertErr : Option BackendError) (reread : Option ProfileRow)
    (st : AuthState) :
    (fetchUserProfile envOk readResult authUser insertErr reread st).isLoading = false := by
  cases envOk <;>
    rcases readResult with err | data <;>
      simp only [fetchUserProfile, profileFallback, adoptProfile, Bool.not_true,
        Bool.not_false, if_true, if_false] <;>
    first
    | rfl
    | (by_cases hc : err.code == "PGRST116" <;>
        rcases authUser with _ | u <;>
          rcases insertErr with _ | ie <;>
            rcases reread with _ | nd <;>
              simp [hc])

/-- C2: the first auth-state-change event after startup is discarded — the
state is unchanged except for the de-duplication flag and no second profile
fetch is issued for the session already fetched at startup — while every
subsequent event updates session/user, fetching the profile when a user is
present and clearing the identity state otherwise. -/
theorem authEvent_first_discarded (s0 e1 : Option String) (uid u2 : String) :
    handleAuthEvent (initEffect s0) e1 = { initEffect s0 with initialLoad := false } ∧
    (handleAuthEvent (initEffect s0) e1).fetchLog = (initEffect s0).fetchLog ∧
    (initEffect (some uid)).fetchLog = [uid] ∧
    (handleAuthEvent (handleAuthEvent (initEffect s0) e1) (some u2)).session = some u2 ∧
    (handleAuthEvent (handleAuthEvent (initEffect s0) e1) (some u2)).user = some u2 ∧
    (handleAuthEvent (handleAuthEvent (initEffect s0) e1) (some u2)).fetchLog =
      (initEffect s0).fetchLog ++ [u2] ∧
    (handleAuthEvent (handleAuthEvent (initEffect s0) e1) none).session = none ∧
    (handleAuthEvent (handleAuthEvent (initEffect s0) e1) none).profile = none ∧
    (handleAuthEvent (handleAuthEvent (initEffect s0) e1) none).userRoles = [] ∧
    (handleAuthEvent (handleAuthEvent (initEffect s0) e1) none).fetchLog =
      (initEffect s0).fetchLog := by
  have hinit : (initEffect s0).initialLoad = true := by
    cases s0 <;> rfl
  have h1 : handleAuthEvent (initEffect s0) e1 =
      { initEffect s0 with initialLoad := false } := by
    simp [handleAuthEvent, hinit]
  refine ⟨h1, by rw [h1], by simp [initEffect, recordFetch], ?_, ?_, ?_, ?_, ?_, ?_, ?_⟩ <;>
    rw [h1] <;> simp [handleAuthEvent, recordFetch]

/-- C7: with both date bounds set, `fetchExpenses` returns exactly the rows
whose `submitted_date` lies in the inclusive range and which satisfy the
remaining active filters, and the result is sorted by `submitted_date`
descending. -/
theorem fetchExpenses_dateRange_sorted (db : List ExpenseRow) (f : Filters)
    (d1 d2 : Nat) :
    (∀ e, e ∈ fetchExpensesRows
        { f with dateRange := some { dfrom := some d1, dto := some d2 } } db ↔
      (e ∈ db ∧
       (buildQuery { f with dateRange := none }).all (fun c => condHolds c e) = true ∧
       d1 ≤ e.submitted_date ∧ e.submitted_date ≤ d2)) ∧
    List.Sorted submittedDesc
      (fetchExpensesRows
        { f with dateRange := some { dfrom := some d1, dto := some d2 } } db) := by
  constructor
  · intro e
    simp [fetchExpensesRows, runQuery, List.mem_insertionSort, List.mem_filter,
      buildQuery, dateConds, condHolds, List.all_append, Bool.and_eq_true,
      decide_eq_true_eq, and_assoc]
  · exact List.sorted_insertionSort _ _

/-- C10: an empty-string status, category or cost-center value and an empty
or whitespace-only search string are treated as absent filters: the built
query, hence the result on every dataset, is the one with the field
omitted. -/
theorem fetchExpenses_empty_filters_absent (f : Filters) (db : List ExpenseRow)
    (s : String) (h : jsTrim s = "") :
    buildQuery { f with search := some s } = buildQuery { f with search := none } ∧
    fetchExpensesRows { f with search := some s } db =
      fetchExpensesRows { f with search := none } db ∧
    buildQuery { f with status := some "" } = buildQuery { f with status := none } ∧
    fetchExpensesRows { f with status := some "" } db =
      fetchExpensesRows { f with status := none } db ∧
    buildQuery { f with category := some "" } = buildQuery { f with category := none } ∧
    fetchExpensesRows { f with category := some "" } db =
      fetchExpensesRows { f with category := none } db ∧
    buildQuery { f with costCenter := some "" } = buildQuery { f with costCenter := none } ∧
    fetchExpensesRows { f with costCenter := some "" } db =
      fetchExpensesRows { f with costCenter := none } db := by
  have hsearch : buildQuery { f with search := some s } =
      buildQuery { f with search := none } := by
    simp [buildQuery, searchConds, h]
  have hstatus : buildQuery { f with status := some "" } =
      buildQuery { f with status := none } := by
    simp [buildQuery, statusConds]
  have hcategory : buildQuery { f with category := some "" } =
      buildQuery { f with category := none } := by
    simp [buildQuery, categoryConds]
  have hcost : buildQuery { f with costCenter := some "" } =
      buildQuery { f with costCenter := none } := by
    simp [buildQuery, costCenterConds]
  exact ⟨hsearch, by simp [fetchExpensesRows, runQuery, hsearch],
    hstatus, by simp [fetchExpensesRows, runQuery, hstatus],
    hcategory, by simp [fetchExpensesRows, runQuery, hcategory],
    hcost, by simp [fetchExpensesRows, runQuery, hcost]⟩

/-- C10 instantiated at a whitespace-only search string over the empty
filter object: the built queries coincide. -/
theorem fetchExpenses_empty_filters_absent_witness :
    (jsTrim " " = "") ∧
    buildQuery { emptyFilters with search := some " " } =
      buildQuery { emptyFilters with search := none } :=
  ⟨by decide, (fetchExpenses_empty_filters_absent emptyFilters [] " " (by decide)).1⟩

end Compras
